import Mathlib

/-!
Verification of the batch orchestration and result-formatting pipeline of
`aigrok` (`src/aigrok/cli.py`): a shallow embedding of `format_output`,
`process_single_file`, `process_file` and `main`, with the external
extraction/LLM service and the filesystem glob modelled as oracle
functions, and theorems settling the specification claims.
-/

namespace Aigrok

/-- Modelled from the spec: `ProcessingResult` is defined in
`aigrok/pdf_processor.py`, which is not part of the visible sources; the
field list and optionality follow spec section 3 (the data model).
`metadata` is an ordered string-to-string mapping; fields other than
`success` default to absent, matching keyword construction such as
`ProcessingResult(success=False, error=..., filename=...)`. -/
structure ProcessingResult where
  success : Bool
  text : Option String := none
  metadata : List (String × String) := []
  page_count : Option Nat := none
  llm_response : Option String := none
  error : Option String := none
  filename : Option String := none
deriving Repr, DecidableEq

/-- Python `x or y` for an optional string `x`: both `None` and the empty
string are falsy, so they fall through to `y`. -/
def pyOr (x : Option String) (y : String) : String :=
  match x with
  | some s => if s = "" then y else s
  | none => y

/-- Python `"sep".join(parts)`. -/
def pyJoin (sep : String) : List String → String
  | [] => ""
  | [x] => x
  | x :: y :: xs => x ++ sep ++ pyJoin sep (y :: xs)

/-- Python `d.get(k, dflt)` on the ordered mapping `m`. -/
def metaGet (m : List (String × String)) (k : String) (dflt : String) : String :=
  match m.find? (fun kv => kv.1 == k) with
  | some kv => kv.2
  | none => dflt

/-- The filename expression used by every branch of `format_output`:
`getattr(r, 'filename', None) or r.metadata.get('file_name', 'unknown')`. -/
def resolveFilename (r : ProcessingResult) : String :=
  pyOr r.filename (metaGet r.metadata "file_name" "unknown")

/-- The primary content expression of the text branches:
`r.llm_response or r.text or ""`. -/
def primaryContent (r : ProcessingResult) : String :=
  pyOr r.llm_response (pyOr r.text "")

/-- Python `str()` of an optional integer, as interpolated by an f-string:
`None` prints as the literal `None`. -/
def pyStrOptNat (x : Option Nat) : String :=
  match x with
  | some n => toString n
  | none => "None"

/-- JSON values, the structures handed to `json.dumps`. -/
inductive Json where
  | jnull : Json
  | jbool : Bool → Json
  | jnum : Nat → Json
  | jstr : String → Json
  | jarr : List Json → Json
  | jobj : List (String × Json) → Json
deriving Repr

/-- String escaping performed by `json.dumps` (the characters that occur
in this development). -/
def escapeJson (s : String) : String :=
  s.foldl (fun acc c =>
    acc ++ (if c = '"' then "\\\"" else if c = '\\' then "\\\\"
            else if c = '\n' then "\\n" else if c = '\t' then "\\t"
            else if c = '\r' then "\\r" else String.singleton c)) ""

/-- Indentation produced by `json.dumps(..., indent=2)`: two spaces per
nesting level. -/
def indentStr (n : Nat) : String := String.join (List.replicate n "  ")

mutual

/-- Rendering of `json.dumps(v, indent=2)` at nesting level `lvl`. -/
def renderJson : Json → Nat → String
  | .jnull, _ => "null"
  | .jbool b, _ => if b then "true" else "false"
  | .jnum n, _ => toString n
  | .jstr s, _ => "\"" ++ escapeJson s ++ "\""
  | .jarr [], _ => "[]"
  | .jarr (x :: xs), lvl =>
      "[\n" ++ renderItems (x :: xs) lvl ++ "\n" ++ indentStr lvl ++ "]"
  | .jobj [], _ => "\x7b\x7d"
  | .jobj (f :: fs), lvl =>
      "\x7b\n" ++ renderFields (f :: fs) lvl ++ "\n" ++ indentStr lvl ++ "\x7d"

/-- Comma-and-newline separated array items, each on its own indented line. -/
def renderItems : List Json → Nat → String
  | [], _ => ""
  | [x], lvl => indentStr (lvl + 1) ++ renderJson x (lvl + 1)
  | x :: y :: xs, lvl =>
      indentStr (lvl + 1) ++ renderJson x (lvl + 1) ++ ",\n" ++
        renderItems (y :: xs) lvl

/-- Comma-and-newline separated object fields, each on its own indented line. -/
def renderFields : List (String × Json) → Nat → String
  | [], _ => ""
  | [kv], lvl =>
      indentStr (lvl + 1) ++ "\"" ++ escapeJson kv.1 ++ "\": " ++
        renderJson kv.2 (lvl + 1)
  | kv :: kw :: fs, lvl =>
      indentStr (lvl + 1) ++ "\"" ++ escapeJson kv.1 ++ "\": " ++
        renderJson kv.2 (lvl + 1) ++ ",\n" ++ renderFields (kw :: fs) lvl

end

/-- The dict built for one result by the json branches of `format_output`. -/
def resultToJson (r : ProcessingResult) : Json :=
  .jobj [
    ("success", .jbool r.success),
    ("text", match r.text with | some s => .jstr s | none => .jnull),
    ("metadata", .jobj (r.metadata.map (fun kv => (kv.1, Json.jstr kv.2)))),
    ("page_count", match r.page_count with | some n => .jnum n | none => .jnull),
    ("llm_response", match r.llm_response with | some s => .jstr s | none => .jnull),
    ("error", match r.error with | some s => .jstr s | none => .jnull),
    ("filename", .jstr (resolveFilename r))
  ]

/-- Keys of a JSON object, in order. -/
def jsonKeys : Json → List String
  | .jobj fs => fs.map Prod.fst
  | _ => []

/-- Field lookup in a JSON object. -/
def jsonField (j : Json) (k : String) : Option Json :=
  match j with
  | .jobj fs => (fs.find? (fun kv => kv.1 == k)).map (fun kv => kv.2)
  | _ => none

/-- The lines built for one result by the markdown branches of
`format_output`: heading, `Text:`, `Page Count:` (note: a bare f-string
interpolation, no `N/A` default), `LLM Response:`, then the optional
`## Metadata` and `## Error` sections. -/
def markdownLines (r : ProcessingResult) : List String :=
  ["# " ++ resolveFilename r,
   "Text: " ++ pyOr r.text "N/A",
   "Page Count: " ++ pyStrOptNat r.page_count,
   "LLM Response: " ++ pyOr r.llm_response "N/A"]
  ++ (if r.metadata.isEmpty then []
      else "## Metadata" :: r.metadata.map (fun kv => kv.1 ++ ": " ++ kv.2))
  ++ (match r.error with
      | some e => if e = "" then [] else ["## Error\n" ++ e]
      | none => [])

/-- Markdown rendering of a single document (the single-result branch). -/
def mdDoc (r : ProcessingResult) : String := pyJoin "\n" (markdownLines r)

/-- The argument of `format_output`: `Union[ProcessingResult,
List[ProcessingResult]]`, discriminated by `isinstance(result, list)`. -/
inductive FormatInput where
  | single (r : ProcessingResult)
  | batch (rs : List ProcessingResult)

/-- Shallow embedding of `format_output` (`cli.py` lines 114-206). Returns
`none` when `format_type` matches no branch (Python falls off the end and
returns `None`); `argparse` restricts the choice to the three valid names. -/
def format_output (result : FormatInput) (format_type : String)
    (show_filenames : Bool) : Option String :=
  match result with
  | .batch rs =>
    if format_type = "text" then
      some (pyJoin "\n" (rs.filterMap (fun r =>
        let response := primaryContent r
        if response = "" then none
        else if show_filenames then some (resolveFilename r ++ ": " ++ response)
        else some response)))
    else if format_type = "json" then
      some (renderJson (.jarr (rs.map resultToJson)) 0)
    else if format_type = "markdown" then
      some (pyJoin "\n" (rs.flatMap (fun r => markdownLines r ++ ["\n---\n"])))
    else none
  | .single r =>
    if format_type = "text" then
      let response := primaryContent r
      if response = "" then some response
      else if show_filenames then some (resolveFilename r ++ ": " ++ response)
      else some response
    else if format_type = "json" then
      some (renderJson (resultToJson r) 0)
    else if format_type = "markdown" then
      some (mdDoc r)
    else none

/-- Split a character list on the separator `/`, keeping empty chunks. -/
def splitSlash : List Char → List (List Char)
  | [] => [[]]
  | c :: cs =>
    if c = '/' then [] :: splitSlash cs
    else
      match splitSlash cs with
      | [] => [[c]]
      | comp :: comps => (c :: comp) :: comps

/-- `str(Path(p).name)`: the final path component, ignoring trailing
slashes and empty components (pathlib normalizes them away). -/
def pathName (p : String) : String :=
  match ((splitSlash p.toList).filter (fun s => s ≠ [])).getLast? with
  | some s => String.mk s
  | none => ""

/-- The external extraction/LLM service (`PDFProcessor().process_file`),
an opaque collaborator: given a path and a prompt it either returns a
result or raises, modelled as `Except` with the stringified exception. -/
abbrev Service := String → String → Except String ProcessingResult

/-- Shallow embedding of `process_single_file` (`cli.py` lines 208-232):
on success stamp `filename = Path(file_path).name` over the service's
result; on any exception synthesize a failed result carrying the
stringified exception and the same filename, all other fields absent. -/
def process_single_file (svc : Service) (file_path : String)
    (prompt : String) : ProcessingResult :=
  match svc file_path prompt with
  | .ok result => { result with filename := some (pathName file_path) }
  | .error e =>
      { success := false, error := some e, filename := some (pathName file_path) }

/-- Shallow embedding of the list branch of `process_file` (`cli.py`
lines 234-250): one `process_single_file` call per path, in order. The
non-list branch of the Python union type is `process_single_file` itself. -/
def process_file (svc : Service) (files : List String)
    (prompt : String) : List ProcessingResult :=
  files.map (fun f => process_single_file svc f prompt)

/-- The glob-expansion loop of `main` (`cli.py` lines 296-302): patterns
are expanded in order, matches concatenated; the first pattern with zero
matches aborts with that pattern. -/
def resolveFiles (globFn : String → List String) :
    List String → Except String (List String)
  | [] => .ok []
  | p :: ps =>
    match globFn p with
    | [] => .error p
    | m :: ms =>
      match resolveFiles globFn ps with
      | .ok rest => .ok ((m :: ms) ++ rest)
      | .error q => .error q

/-- The parsed command-line arguments that influence the modelled control
flow of `main`. Flags that only affect logging or are forwarded unused
(`verbose`, `model`, `output`, `type`, `metadata_only`, `ocr_languages`,
`ocr_fallback`) are omitted. -/
structure Args where
  files : List String := []
  prompt : Option String := none
  format : String := "text"
  configure : Bool := false
  easyocr : Bool := false
deriving Repr

/-- Observable outcome of one `main` invocation: the lines printed to
stdout, the process exit status, and the file paths actually handed to
`process_file`. -/
structure Outcome where
  prints : List String
  exitCode : Nat
  processed : List String
deriving Repr, DecidableEq

/-- Python truthiness of `args.prompt` as tested on `cli.py` lines
287-288: `None` and the empty string are falsy. -/
def promptTruthy (a : Args) : Bool :=
  match a.prompt with
  | some p => p != ""
  | none => false

/-- The body of `main` (`cli.py` lines 252-307) up to the top-level
exception handler. `hasConfig` models `config_manager.config` being
truthy. The only exception source inside the modelled region is
`args.files[0]` on an empty list, which raises
`IndexError: list index out of range`. -/
def mainBody (a : Args) (hasConfig : Bool) (globFn : String → List String)
    (svc : Service) : Except String Outcome :=
  if a.configure then .ok ⟨[], 0, []⟩
  else if a.easyocr && !hasConfig then
    .ok ⟨["Error: PDF processor not properly initialized. Please run with --configure first."], 0, []⟩
  else
    match (if promptTruthy a then .ok (a.prompt.getD "", a.files)
           else match a.files with
             | [] => .error "list index out of range"
             | f :: rest => .ok (f, rest) :
            Except String (String × List String)) with
    | .error e => .error e
    | .ok (prompt, patterns) =>
      if patterns.isEmpty then .ok ⟨["Error: No input files specified"], 0, []⟩
      else
        match resolveFiles globFn patterns with
        | .error pat => .ok ⟨["Error: File not found: " ++ pat], 0, []⟩
        | .ok fs =>
          let results := process_file svc fs prompt
          let multi := decide (fs.length > 1)
          .ok ⟨[(format_output (.batch results) a.format multi).getD "None"], 0, fs⟩

/-- `main` with its top-level handler (`cli.py` lines 309-312): an escaped
exception is printed as `Error: <message>` and the process exits with
status 1; otherwise the function returns normally (exit status 0). -/
def mainRun (a : Args) (hasConfig : Bool) (globFn : String → List String)
    (svc : Service) : Outcome :=
  match mainBody a hasConfig globFn svc with
  | .ok o => o
  | .error e => ⟨["Error: " ++ e], 1, []⟩

/-! ### Shared sample values and helper lemmas -/

/-- A result with every optional field absent. -/
def sampleEmpty : ProcessingResult := { success := true }

/-- A successful result with llm response A and filename a.pdf. -/
def sampleA : ProcessingResult :=
  { success := true, llm_response := some "A", filename := some "a.pdf" }

/-- A successful result with llm response B and filename b.pdf. -/
def sampleB : ProcessingResult :=
  { success := true, llm_response := some "B", filename := some "b.pdf" }

/-- A result with no explicit filename but a file_name metadata entry. -/
def sampleMeta : ProcessingResult :=
  { success := true, metadata := [("file_name", "x.pdf")] }

/-- A service that succeeds on every file, echoing the path in the
response. -/
def sampleSvc : Service := fun f _ =>
  .ok { success := true, llm_response := some ("resp-" ++ f) }

/-- A filesystem on which the pattern a* matches two files, b* matches
one, and every other pattern matches nothing. -/
def sampleGlob : String → List String := fun p =>
  if p = "a*" then ["a1.pdf", "a2.pdf"] else if p = "b*" then ["b1.pdf"] else []

theorem process_single_file_filename (svc : Service) (f prompt : String) :
    (process_single_file svc f prompt).filename = some (pathName f) := by
  unfold process_single_file
  cases svc f prompt <;> rfl

theorem filterMap_eq_map_of_some {α β : Type} (f : α → Option β) (g : α → β)
    (l : List α) (h : ∀ a ∈ l, f a = some (g a)) : l.filterMap f = l.map g := by
  induction l with
  | nil => rfl
  | cons a as ih =>
      rw [List.filterMap_cons, h a (List.mem_cons_self a as), List.map_cons,
        ih (fun x hx => h x (List.mem_cons_of_mem a hx))]

/-! ### Claim theorems -/

/-- C1: if the external service raises, `process_single_file` catches the
exception and returns a failed result carrying the stringified exception
and the base name of the path, all other fields absent; and
`process_file` on a list of paths returns one result per path, in input
order, regardless of individual failures. -/
theorem c1_failure_isolated (svc : Service) (path prompt e : String)
    (he : svc path prompt = .error e) (files : List String) (i : Nat) :
    process_single_file svc path prompt =
      { success := false, text := none, metadata := [], page_count := none,
        llm_response := none, error := some e,
        filename := some (pathName path) } ∧
    (process_file svc files prompt).length = files.length ∧
    (process_file svc files prompt).get? i =
      (files.get? i).map (fun f => process_single_file svc f prompt) := by
  refine ⟨?_, ?_, ?_⟩
  · simp [process_single_file, he]
  · simp [process_file]
  · simp [process_file]

/-- Witness for C1: a service that always raises, applied to a concrete
two-file batch. -/
theorem c1_failure_isolated_witness :
    process_single_file (fun _ _ => .error "boom") "dir/a.pdf" "p" =
      { success := false, error := some "boom", filename := some "a.pdf" } ∧
    (process_file (fun _ _ => .error "boom") ["dir/a.pdf", "b.pdf"] "p").length = 2 ∧
    (process_file (fun _ _ => .error "boom") ["dir/a.pdf", "b.pdf"] "p").get? 0 =
      some (process_single_file (fun _ _ => .error "boom") "dir/a.pdf" "p") := by
  have h := c1_failure_isolated (fun _ _ => .error "boom") "dir/a.pdf" "p" "boom"
    rfl ["dir/a.pdf", "b.pdf"] 0
  exact ⟨h.1.trans (by decide), h.2.1, h.2.2.trans (by decide)⟩

/-- C3 (code bug): invoking the pipeline with an empty positional token
list and no prompt flag does not abort gracefully: `args.files[0]` raises
IndexError, the top-level handler prints `Error: list index out of range`,
and the process exits with status 1 instead of returning normally. -/
theorem c3_crash_on_empty_args :
    mainRun { files := [], prompt := none } true (fun _ => [])
        (fun _ _ => .error "svc") =
      { prints := ["Error: list index out of range"], exitCode := 1,
        processed := [] } := by
  rfl

/-- C10: `process_single_file` stamps `filename = Path(file_path).name` in
both outcomes — on failure it is synthesized into the error result and on
success it overwrites whatever the service set — so every result the
pipeline hands to formatting carries the base name of its input path. -/
theorem c10_filename_always_stamped (svc : Service) (path prompt : String)
    (files : List String) (i : Nat) :
    (process_single_file svc path prompt).filename = some (pathName path) ∧
    (∀ res, svc path prompt = .ok res →
      process_single_file svc path prompt =
        { res with filename := some (pathName path) }) ∧
    ((process_file svc files prompt).get? i).map ProcessingResult.filename =
      (files.get? i).map (fun f => some (pathName f)) := by
  refine ⟨process_single_file_filename svc path prompt, ?_, ?_⟩
  · intro res h
    simp [process_single_file, h]
  · unfold process_file
    rw [List.get?_map]
    cases files.get? i with
    | none => rfl
    | some f => simp [process_single_file_filename]

/-- Witness for C10: a service that sets a bogus filename on success is
overwritten; a failing path also gets its base name. -/
theorem c10_filename_always_stamped_witness :
    (process_single_file (fun _ _ => .error "boom") "dir/a.pdf" "p").filename =
      some "a.pdf" ∧
    process_single_file
        (fun _ _ => .ok { success := true, filename := some "bogus" })
        "dir/a.pdf" "p" =
      { success := true, filename := some "a.pdf" } := by
  have h1 := (c10_filename_always_stamped (fun _ _ => .error "boom")
    "dir/a.pdf" "p" [] 0).1
  have h2 := (c10_filename_always_stamped
    (fun _ _ => .ok { success := true, filename := some "bogus" })
    "dir/a.pdf" "p" [] 0).2.1 { success := true, filename := some "bogus" } rfl
  exact ⟨h1.trans (by decide), h2.trans (by decide)⟩

/-- C4: in text format the primary content is `llm_response` if non-empty,
else `text` if non-empty, else the empty string; a result with empty
primary content contributes no line to a multi-result rendering (wherever
it sits in the batch), while a single-result call returns the empty string
unchanged. -/
theorem c4_text_primary_and_omission (r : ProcessingResult)
    (xs ys : List ProcessingResult) (sf : Bool) :
    (∀ s, r.llm_response = some s → s ≠ "" → primaryContent r = s) ∧
    ((r.llm_response = none ∨ r.llm_response = some "") →
      ∀ t, r.text = some t → t ≠ "" → primaryContent r = t) ∧
    ((r.llm_response = none ∨ r.llm_response = some "") →
      (r.text = none ∨ r.text = some "") → primaryContent r = "") ∧
    (primaryContent r = "" →
      format_output (.batch (xs ++ r :: ys)) "text" sf =
        format_output (.batch (xs ++ ys)) "text" sf) ∧
    (primaryContent r = "" → format_output (.single r) "text" sf = some "") := by
  refine ⟨?_, ?_, ?_, ?_, ?_⟩
  · intro s hs hne
    simp [primaryContent, pyOr, hs, hne]
  · rintro (h | h) t ht hne <;> simp [primaryContent, pyOr, h, ht, hne]
  · rintro (h | h) (h2 | h2) <;> simp [primaryContent, pyOr, h, h2]
  · intro h
    simp [format_output, List.filterMap_append, List.filterMap_cons, h]
  · intro h
    simp [format_output, h]

/-- Witness for C4: a result with both content fields absent is omitted
from the middle of a batch and yields the empty string alone. -/
theorem c4_text_primary_and_omission_witness :
    primaryContent sampleEmpty = "" ∧
    format_output (.batch [sampleA, sampleEmpty, sampleB]) "text" false =
      format_output (.batch [sampleA, sampleB]) "text" false ∧
    format_output (.single sampleEmpty) "text" false = some "" := by
  have h := c4_text_primary_and_omission sampleEmpty [sampleA] [sampleB] false
  exact ⟨h.2.2.1 (Or.inl rfl) (Or.inl rfl),
    h.2.2.2.1 (h.2.2.1 (Or.inl rfl) (Or.inl rfl)),
    h.2.2.2.2 (h.2.2.1 (Or.inl rfl) (Or.inl rfl))⟩

/-- C5 (counterexample): a result with `page_count` absent renders the
markdown line `Page Count: None`, not the claimed `Page Count: N/A`: the
f-string interpolates the Python value with no default. -/
theorem c5_counterexample :
    format_output (.single sampleEmpty) "markdown" false =
      some "# unknown\nText: N/A\nPage Count: None\nLLM Response: N/A" ∧
    ¬ ("Page Count: N/A" ∈
        ["# unknown", "Text: N/A", "Page Count: None", "LLM Response: N/A"]) ∧
    markdownLines sampleEmpty =
      ["# unknown", "Text: N/A", "Page Count: None", "LLM Response: N/A"] := by
  exact ⟨rfl, by decide, rfl⟩

/-- C5 (amended): markdown emits for every result a heading line with the
filename, then `Text:`, `Page Count:` and `LLM Response:` lines, where
`Text:` and `LLM Response:` default to the literal `N/A` when absent or
falsy but `Page Count:` is a bare interpolation that renders an absent
value as the literal `None`. -/
theorem c5_markdown_field_lines (r : ProcessingResult)
    (rs : List ProcessingResult) :
    (∃ rest, format_output (.single r) "markdown" false =
      some (pyJoin "\n" (("# " ++ resolveFilename r) ::
        ("Text: " ++ pyOr r.text "N/A") ::
        ("Page Count: " ++ pyStrOptNat r.page_count) ::
        ("LLM Response: " ++ pyOr r.llm_response "N/A") :: rest))) ∧
    (∃ rest, format_output (.batch (r :: rs)) "markdown" false =
      some (pyJoin "\n" (("# " ++ resolveFilename r) ::
        ("Text: " ++ pyOr r.text "N/A") ::
        ("Page Count: " ++ pyStrOptNat r.page_count) ::
        ("LLM Response: " ++ pyOr r.llm_response "N/A") :: rest))) ∧
    pyStrOptNat none = "None" ∧ pyOr none "N/A" = "N/A" := by
  refine ⟨?_, ?_, rfl, rfl⟩
  · refine ⟨(if r.metadata.isEmpty then []
        else "## Metadata" :: r.metadata.map (fun kv => kv.1 ++ ": " ++ kv.2))
      ++ (match r.error with
          | some e => if e = "" then [] else ["## Error\n" ++ e]
          | none => []), ?_⟩
    simp [format_output, mdDoc, markdownLines]
  · refine ⟨((if r.metadata.isEmpty then []
        else "## Metadata" :: r.metadata.map (fun kv => kv.1 ++ ": " ++ kv.2))
      ++ (match r.error with
          | some e => if e = "" then [] else ["## Error\n" ++ e]
          | none => []))
      ++ ["\n---\n"]
      ++ rs.flatMap (fun x => markdownLines x ++ ["\n---\n"]), ?_⟩
    simp [format_output, markdownLines]

theorem pyJoin_append (sep : String) (xs ys : List String) (hx : xs ≠ [])
    (hy : ys ≠ []) :
    pyJoin sep (xs ++ ys) = pyJoin sep xs ++ sep ++ pyJoin sep ys := by
  induction xs with
  | nil => exact absurd rfl hx
  | cons a as ih =>
    cases as with
    | nil =>
      cases ys with
      | nil => exact absurd rfl hy
      | cons b bs => simp [pyJoin]
    | cons a2 as2 =>
      have step := ih (by simp)
      have hcons : (a :: a2 :: as2) ++ ys = a :: ((a2 :: as2) ++ ys) := rfl
      rw [hcons]
      have hcons2 : (a2 :: as2) ++ ys = a2 :: (as2 ++ ys) := rfl
      rw [hcons2]
      show a ++ sep ++ pyJoin sep (a2 :: (as2 ++ ys)) = _
      rw [← hcons2, step]
      show _ = a ++ sep ++ pyJoin sep (a2 :: as2) ++ sep ++ pyJoin sep ys
      simp [String.append_assoc]

theorem markdownLines_ne_nil (r : ProcessingResult) : markdownLines r ≠ [] := by
  simp [markdownLines]

theorem pyJoin_md_batch (rs : List ProcessingResult) (h : rs ≠ []) :
    pyJoin "\n" (rs.flatMap (fun r => markdownLines r ++ ["\n---\n"])) =
      pyJoin "\n\n---\n\n" (rs.map mdDoc) ++ "\n\n---\n" := by
  induction rs with
  | nil => exact absurd rfl h
  | cons r rest ih =>
    cases rest with
    | nil =>
      show pyJoin "\n" (markdownLines r ++ ["\n---\n"] ++ []) = _
      rw [List.append_nil,
        pyJoin_append "\n" (markdownLines r) ["\n---\n"]
          (markdownLines_ne_nil r) (by simp)]
      show mdDoc r ++ "\n" ++ "\n---\n" = pyJoin "\n\n---\n\n" [mdDoc r] ++ "\n\n---\n"
      rw [String.append_assoc]
      rfl
    | cons r2 rest2 =>
      have hflat : (r :: r2 :: rest2).flatMap
          (fun x => markdownLines x ++ ["\n---\n"]) =
          (markdownLines r ++ ["\n---\n"]) ++
            (r2 :: rest2).flatMap (fun x => markdownLines x ++ ["\n---\n"]) := by
        simp
      rw [hflat,
        pyJoin_append "\n" (markdownLines r ++ ["\n---\n"])
          ((r2 :: rest2).flatMap (fun x => markdownLines x ++ ["\n---\n"]))
          (by simp) (by simp [markdownLines_ne_nil]),
        pyJoin_append "\n" (markdownLines r) ["\n---\n"]
          (markdownLines_ne_nil r) (by simp),
        ih (by simp)]
      have hmap : (r :: r2 :: rest2).map mdDoc =
          mdDoc r :: (r2 :: rest2).map mdDoc := rfl
      rw [hmap]
      show mdDoc r ++ "\n" ++ "\n---\n" ++ "\n" ++
          (pyJoin "\n\n---\n\n" ((r2 :: rest2).map mdDoc) ++ "\n\n---\n") =
        mdDoc r ++ "\n\n---\n\n" ++
          pyJoin "\n\n---\n\n" ((r2 :: rest2).map mdDoc) ++ "\n\n---\n"
      simp only [String.append_assoc]
      congr 1

/-- C6 (counterexample): even a single-document batch ends with the
separator line, so the separator is appended after the last document, not
only between consecutive ones. -/
theorem c6_counterexample :
    format_output (.batch [sampleEmpty]) "markdown" false =
      some "# unknown\nText: N/A\nPage Count: None\nLLM Response: N/A\n\n---\n" ∧
    (∃ s, ("# unknown\nText: N/A\nPage Count: None\nLLM Response: N/A\n\n---\n" : String) =
      s ++ "\n---\n") := by
  exact ⟨rfl, ⟨"# unknown\nText: N/A\nPage Count: None\nLLM Response: N/A\n", by decide⟩⟩

/-- C6 (amended): in a multi-result markdown batch the documents are
separated by the horizontal-rule block, and a trailing separator is also
appended after the last document; a single (non-list) result gets no
separator. -/
theorem c6_separator_after_every_document (rs : List ProcessingResult)
    (r : ProcessingResult) (h : rs ≠ []) :
    format_output (.batch rs) "markdown" false =
      some (pyJoin "\n\n---\n\n" (rs.map mdDoc) ++ "\n\n---\n") ∧
    format_output (.single r) "markdown" false = some (mdDoc r) := by
  constructor
  · simp [format_output, pyJoin_md_batch rs h]
  · rfl

/-- Witness for C6 (amended) at a concrete two-document batch. -/
theorem c6_separator_after_every_document_witness :
    format_output (.batch [sampleA, sampleB]) "markdown" false =
      some (pyJoin "\n\n---\n\n" [mdDoc sampleA, mdDoc sampleB] ++ "\n\n---\n") ∧
    format_output (.single sampleA) "markdown" false = some (mdDoc sampleA) := by
  have h := c6_separator_after_every_document [sampleA, sampleB] sampleA
    (by simp)
  exact ⟨h.1, h.2⟩

/-- C7: the json format serializes a result list as the 2-space-indented
rendering of an array with one object per result, in input order, each
object carrying exactly the keys success, text, metadata, page_count,
llm_response, error, filename; a single (non-list) result serializes as
one object, not an array. -/
theorem c7_json_structure (rs : List ProcessingResult) (r : ProcessingResult)
    (sf sf2 : Bool) (i : Nat) :
    format_output (.batch rs) "json" sf =
      some (renderJson (.jarr (rs.map resultToJson)) 0) ∧
    (rs.map resultToJson).length = rs.length ∧
    (rs.map resultToJson).get? i = (rs.get? i).map resultToJson ∧
    jsonKeys (resultToJson r) =
      ["success", "text", "metadata", "page_count", "llm_response", "error",
        "filename"] ∧
    format_output (.single r) "json" sf2 =
      some (renderJson (resultToJson r) 0) ∧
    (∃ fields, resultToJson r = .jobj fields) ∧
    renderJson (.jarr [.jnum 1, .jnum 2]) 0 = "[\n  1,\n  2\n]" := by
  refine ⟨rfl, by simp, by simp, rfl, rfl, ⟨_, rfl⟩, rfl⟩

/-- C8: every format resolves the rendered filename through the same
three-tier rule — the explicit field when it is set and non-empty, else
the file_name metadata entry when the key is present, else the literal
unknown — and `resolveFilename` is exactly that rule. -/
theorem c8_filename_three_tier (r : ProcessingResult) (s : String) :
    (r.filename = some s → s ≠ "" → resolveFilename r = s) ∧
    (r.filename = none → ∀ kv,
      r.metadata.find? (fun p => p.1 == "file_name") = some kv →
      resolveFilename r = kv.2) ∧
    (r.filename = none →
      r.metadata.find? (fun p => p.1 == "file_name") = none →
      resolveFilename r = "unknown") ∧
    (primaryContent r ≠ "" →
      format_output (.single r) "text" true =
        some (resolveFilename r ++ ": " ++ primaryContent r)) ∧
    jsonField (resultToJson r) "filename" = some (.jstr (resolveFilename r)) ∧
    (∃ rest, format_output (.single r) "markdown" false =
      some (pyJoin "\n" (("# " ++ resolveFilename r) :: rest))) := by
  refine ⟨?_, ?_, ?_, ?_, ?_, ?_⟩
  · intro hf hs
    simp [resolveFilename, pyOr, hf, hs]
  · intro hf kv hkv
    simp [resolveFilename, pyOr, metaGet, hf, hkv]
  · intro hf hkv
    simp [resolveFilename, pyOr, metaGet, hf, hkv]
  · intro h
    simp [format_output, h]
  · simp [jsonField, resultToJson]
  · refine ⟨("Text: " ++ pyOr r.text "N/A") ::
      ("Page Count: " ++ pyStrOptNat r.page_count) ::
      ("LLM Response: " ++ pyOr r.llm_response "N/A") ::
      ((if r.metadata.isEmpty then []
        else "## Metadata" :: r.metadata.map (fun kv => kv.1 ++ ": " ++ kv.2))
       ++ (match r.error with
           | some e => if e = "" then [] else ["## Error\n" ++ e]
           | none => [])), ?_⟩
    simp [format_output, mdDoc, markdownLines]

/-- Witness for C8: the fallback rule at a result with only a file_name
metadata entry, a result with neither source, and the text rendering. -/
theorem c8_filename_three_tier_witness :
    resolveFilename sampleMeta = "x.pdf" ∧
    resolveFilename sampleEmpty = "unknown" ∧
    format_output (.single { sampleMeta with llm_response := some "R" })
        "text" true =
      some (resolveFilename { sampleMeta with llm_response := some "R" } ++
        ": " ++ primaryContent { sampleMeta with llm_response := some "R" }) := by
  refine ⟨?_, ?_, ?_⟩
  · exact (c8_filename_three_tier sampleMeta "x").2.1 rfl ("file_name", "x.pdf") rfl
  · exact (c8_filename_three_tier sampleEmpty "x").2.2.1 rfl rfl
  · exact (c8_filename_three_tier
      { sampleMeta with llm_response := some "R" } "x").2.2.2.1 (by decide)

theorem resolveFiles_error_mem (globFn : String → List String)
    (ps : List String) (p : String) (h : resolveFiles globFn ps = .error p) :
    p ∈ ps ∧ globFn p = [] := by
  induction ps with
  | nil => simp [resolveFiles] at h
  | cons a as ih =>
    rw [resolveFiles] at h
    cases hg : globFn a with
    | nil =>
      rw [hg] at h
      injection h with h2
      subst h2
      exact ⟨List.mem_cons_self a as, hg⟩
    | cons m ms =>
      rw [hg] at h
      cases hr : resolveFiles globFn as with
      | ok rest => rw [hr] at h; cases h
      | error q =>
        rw [hr] at h
        injection h with h2
        subst h2
        obtain ⟨hmem, hempty⟩ := ih hr
        exact ⟨List.mem_cons_of_mem a hmem, hempty⟩

theorem resolveFiles_isError_of_empty (globFn : String → List String)
    (ps : List String) (p : String) (hp : p ∈ ps) (hg : globFn p = []) :
    ∃ q, resolveFiles globFn ps = .error q := by
  induction ps with
  | nil => cases hp
  | cons a as ih =>
    cases hga : globFn a with
    | nil => exact ⟨a, by rw [resolveFiles, hga]⟩
    | cons m ms =>
      rcases List.mem_cons.mp hp with rfl | hmem
      · rw [hga] at hg; cases hg
      · obtain ⟨q, hq⟩ := ih hmem
        refine ⟨q, ?_⟩
        rw [resolveFiles, hga, hq]

theorem resolveFiles_ok_of_all_nonempty (globFn : String → List String)
    (ps : List String) (h : ∀ p ∈ ps, globFn p ≠ []) :
    resolveFiles globFn ps = .ok (ps.map globFn).join := by
  induction ps with
  | nil => rfl
  | cons a as ih =>
    cases hga : globFn a with
    | nil => exact absurd hga (h a (List.mem_cons_self a as))
    | cons m ms =>
      rw [resolveFiles, hga, ih (fun p hp => h p (List.mem_cons_of_mem a hp))]
      simp [hga]

theorem mainRun_resolved (pr : String) (patterns : List String)
    (globFn : String → List String) (svc : Service) (fmt : String)
    (fs : List String) (hpr : pr ≠ "") (hne : patterns ≠ [])
    (hok : resolveFiles globFn patterns = .ok fs) :
    mainRun { files := patterns, prompt := some pr, format := fmt } false
        globFn svc =
      { prints := [(format_output (.batch (process_file svc fs pr)) fmt
          (decide (fs.length > 1))).getD "None"],
        exitCode := 0, processed := fs } := by
  have h1 : patterns.isEmpty = false := by
    cases patterns with
    | nil => exact absurd rfl hne
    | cons a as => rfl
  simp [mainRun, mainBody, promptTruthy, hpr, h1, hok]

theorem mainRun_pattern_error (pr : String) (patterns : List String)
    (globFn : String → List String) (svc : Service) (fmt : String)
    (p : String) (hpr : pr ≠ "") (hne : patterns ≠ [])
    (herr : resolveFiles globFn patterns = .error p) :
    mainRun { files := patterns, prompt := some pr, format := fmt } false
        globFn svc =
      { prints := ["Error: File not found: " ++ p], exitCode := 0,
        processed := [] } := by
  have h1 : patterns.isEmpty = false := by
    cases patterns with
    | nil => exact absurd rfl hne
    | cons a as => rfl
  simp [mainRun, mainBody, promptTruthy, hpr, h1, herr]

/-- C2: if any pattern expands to zero matches, the pipeline prints
exactly one line, Error: File not found: followed by the first failing
pattern, and returns with no file processed — not even files of patterns
that did match; otherwise the resolved file list is the concatenation of
each pattern's matches in pattern order, duplicates preserved. -/
theorem c2_all_or_nothing (pr : String) (patterns : List String)
    (globFn : String → List String) (svc : Service) (fmt : String)
    (hpr : pr ≠ "") (hne : patterns ≠ []) :
    (∀ p, resolveFiles globFn patterns = .error p →
      p ∈ patterns ∧ globFn p = [] ∧
      mainRun { files := patterns, prompt := some pr, format := fmt } false
          globFn svc =
        { prints := ["Error: File not found: " ++ p], exitCode := 0,
          processed := [] }) ∧
    ((∃ p ∈ patterns, globFn p = []) →
      ∃ q, resolveFiles globFn patterns = .error q) ∧
    ((∀ p ∈ patterns, globFn p ≠ []) →
      resolveFiles globFn patterns = .ok (patterns.map globFn).join ∧
      (mainRun { files := patterns, prompt := some pr, format := fmt } false
          globFn svc).processed = (patterns.map globFn).join) := by
  refine ⟨?_, ?_, ?_⟩
  · intro p hp
    obtain ⟨hmem, hempty⟩ := resolveFiles_error_mem globFn patterns p hp
    exact ⟨hmem, hempty,
      mainRun_pattern_error pr patterns globFn svc fmt p hpr hne hp⟩
  · rintro ⟨p, hmem, hempty⟩
    exact resolveFiles_isError_of_empty globFn patterns p hmem hempty
  · intro hall
    have hok := resolveFiles_ok_of_all_nonempty globFn patterns hall
    refine ⟨hok, ?_⟩
    rw [mainRun_resolved pr patterns globFn svc fmt (patterns.map globFn).join
      hpr hne hok]

/-- Witness for C2: on a filesystem where a* matches two files and
missing* matches none, the batch aborts with the error line and processes
nothing; when every pattern matches, the file list is the in-order
concatenation of the matches. -/
theorem c2_all_or_nothing_witness :
    mainRun { files := ["a*", "missing*"], prompt := some "q", format := "text" }
        false sampleGlob sampleSvc =
      { prints := ["Error: File not found: missing*"], exitCode := 0,
        processed := [] } ∧
    (mainRun { files := ["a*", "b*"], prompt := some "q", format := "text" }
        false sampleGlob sampleSvc).processed =
      ["a1.pdf", "a2.pdf", "b1.pdf"] := by
  constructor
  · exact ((c2_all_or_nothing "q" ["a*", "missing*"] sampleGlob sampleSvc
      "text" (by decide) (by decide)).1 "missing*" rfl).2.2
  · have h := ((c2_all_or_nothing "q" ["a*", "b*"] sampleGlob sampleSvc
      "text" (by decide) (by decide)).2.2 (by decide)).2
    exact h.trans (by decide)

theorem format_output_batch_text_show (rs : List ProcessingResult) :
    format_output (.batch rs) "text" true =
      some (pyJoin "\n" (rs.filterMap (fun r =>
        if primaryContent r = "" then none
        else some (resolveFilename r ++ ": " ++ primaryContent r)))) := rfl

theorem format_output_batch_text_bare (rs : List ProcessingResult) :
    format_output (.batch rs) "text" false =
      some (pyJoin "\n" (rs.filterMap (fun r =>
        if primaryContent r = "" then none
        else some (primaryContent r)))) := rfl

/-- C9: in multi-result text format every non-empty line is prefixed with
the filename and a colon exactly when show_filenames is true, lines are
joined by a single newline with no trailing separator, and the caller
passes show_filenames = true exactly when more than one file was
resolved. -/
theorem c9_text_prefix_policy (rs : List ProcessingResult)
    (hfull : ∀ r ∈ rs, primaryContent r ≠ "")
    (pr : String) (patterns : List String) (globFn : String → List String)
    (svc : Service) (fmt : String) (fs : List String)
    (hpr : pr ≠ "") (hne : patterns ≠ [])
    (hok : resolveFiles globFn patterns = .ok fs) :
    format_output (.batch rs) "text" true =
      some (pyJoin "\n"
        (rs.map (fun r => resolveFilename r ++ ": " ++ primaryContent r))) ∧
    format_output (.batch rs) "text" false =
      some (pyJoin "\n" (rs.map primaryContent)) ∧
    mainRun { files := patterns, prompt := some pr, format := fmt } false
        globFn svc =
      { prints := [(format_output (.batch (process_file svc fs pr)) fmt
          (decide (fs.length > 1))).getD "None"],
        exitCode := 0, processed := fs } := by
  refine ⟨?_, ?_, mainRun_resolved pr patterns globFn svc fmt fs hpr hne hok⟩
  · rw [format_output_batch_text_show rs,
      filterMap_eq_map_of_some
        (fun r => if primaryContent r = "" then none
          else some (resolveFilename r ++ ": " ++ primaryContent r))
        (fun r => resolveFilename r ++ ": " ++ primaryContent r) rs
        (fun r hr => by simp [hfull r hr])]
  · rw [format_output_batch_text_bare rs,
      filterMap_eq_map_of_some
        (fun r => if primaryContent r = "" then none
          else some (primaryContent r))
        (fun r => primaryContent r) rs
        (fun r hr => by simp [hfull r hr])]

/-- Witness for C9: two resolved files render with filename prefixes and a
single newline; one resolved file renders the bare response. -/
theorem c9_text_prefix_policy_witness :
    format_output (.batch [sampleA, sampleB]) "text" true =
      some "a.pdf: A\nb.pdf: B" ∧
    mainRun { files := ["a*", "b*"], prompt := some "q", format := "text" }
        false sampleGlob sampleSvc =
      { prints := ["a1.pdf: resp-a1.pdf\na2.pdf: resp-a2.pdf\nb1.pdf: resp-b1.pdf"],
        exitCode := 0, processed := ["a1.pdf", "a2.pdf", "b1.pdf"] } ∧
    mainRun { files := ["b*"], prompt := some "q", format := "text" }
        false sampleGlob sampleSvc =
      { prints := ["resp-b1.pdf"], exitCode := 0, processed := ["b1.pdf"] } := by
  refine ⟨?_, ?_, ?_⟩
  · exact (c9_text_prefix_policy [sampleA, sampleB] (by decide) "q" ["b*"]
      sampleGlob sampleSvc "text" ["b1.pdf"] (by decide) (by decide)
      rfl).1.trans (by decide)
  · exact (c9_text_prefix_policy [] (by decide) "q" ["a*", "b*"]
      sampleGlob sampleSvc "text" ["a1.pdf", "a2.pdf", "b1.pdf"] (by decide)
      (by decide) rfl).2.2.trans (by decide)
  · exact (c9_text_prefix_policy [] (by decide) "q" ["b*"]
      sampleGlob sampleSvc "text" ["b1.pdf"] (by decide) (by decide)
      rfl).2.2.trans (by decide)

end Aigrok
